import Mathlib

/-!
Verification of the SafeStakeOperator network dispatch layer.

Shallow embedding of:
  src/hotstuff/network/src/receiver.rs   (Receiver, MessageHandler, spawn_runner loop)
  src/hotstuff/consensus/src/consensus.rs (ConsensusReceiverHandler, Consensus::spawn)
  src/src/node/node.rs                    (handler-table creation)

The per-connection receive loop is modelled as a step function on a connection
state, driven by a list of inbound frames; the handler table, the reply writer
and the bounded inter-component channels are explicit data.
-/

namespace SafeStake

/-- Opaque consensus data as seen by the dispatch layer: the receiver and the
handler never inspect the contents of a block, vote, timeout, certificate,
digest or public key, so each is modelled as a bare natural number tag. -/
abbrev Digest := Nat

abbrev PublicKey := Nat

abbrev Block := Nat

abbrev VoteMsg := Nat

abbrev TimeoutMsg := Nat

abbrev TCMsg := Nat

/-- The tagged union of consensus wire messages, from consensus.rs
(enum ConsensusMessage). -/
inductive ConsensusMessage where
  | Propose (b : Block)
  | Vote (v : VoteMsg)
  | Timeout (t : TimeoutMsg)
  | TC (tc : TCMsg)
  | SyncRequest (missing : Digest) (origin : PublicKey)
deriving DecidableEq, Repr

/-- The raw byte replies the receiver or handler writes back on a connection
(receiver.rs and consensus.rs string literals). -/
inductive Reply where
  | Ack
  | VersionMismatch
  | NoHandlerFound
  | InvalidMessage
deriving DecidableEq, Repr

/-- The writer half of a connection. The source discards the result of every
writer send, so the model records whether the transport is failing and, when it
is not, the list of replies actually written. -/
structure Writer where
  failing : Bool
  sent : List Reply
deriving DecidableEq, Repr

/-- writer.send(...) from futures SinkExt: appends the reply when the transport
works, reports failure otherwise. Every call site in the source ignores the
returned flag. -/
def Writer.send (w : Writer) (r : Reply) : Writer × Bool :=
  if w.failing then (w, false)
  else ({ w with sent := w.sent ++ [r] }, true)

/-- The default channel capacity for each channel of the consensus
(consensus.rs, CHANNEL_CAPACITY). -/
def CHANNEL_CAPACITY : Nat := 10000

/-- A bounded inter-component channel: capacity plus current buffer. -/
structure Channel (α : Type) where
  capacity : Nat
  buf : List α
deriving DecidableEq, Repr

/-- Modelled from the spec: MonitoredSender::send of the utils crate
(utils::monitored_channel) is not under src/. Per the spec, inter-component
channels are bounded and a send to a full channel is treated as an
unrecoverable condition for the owning task (the task aborts) rather than an
applied backpressure delay; none here is that abort. -/
def Channel.send {α : Type} (c : Channel α) (x : α) : Option (Channel α) :=
  if c.buf.length < c.capacity then some { c with buf := c.buf ++ [x] }
  else none

/-- The inner payload of an envelope, as the handler sees it: either bytes that
bincode decodes to a ConsensusMessage, or bytes on which decoding fails. -/
inductive Payload where
  | ok (m : ConsensusMessage)
  | malformed
deriving DecidableEq, Repr

/-- Modelled from the spec: dvf_message.rs is not under src/. The spec gives
the wire envelope as a struct of a protocol version, a target validator
identifier and an opaque message payload. -/
structure DvfMessage where
  version : Nat
  validator_id : Nat
  message : Payload
deriving DecidableEq, Repr

/-- Modelled from the spec: the expected protocol version constant VERSION of
dvf_message.rs is not under src/; only equality with it matters, so the model
fixes it to 1. -/
def VERSION : Nat := 1

/-- ConsensusReceiverHandler from consensus.rs: the per-validator endpoints,
one sender into the consensus core inbox and one into the helper inbox. -/
structure ConsensusReceiverHandler where
  tx_consensus : Channel ConsensusMessage
  tx_helper : Channel (Digest × PublicKey)
deriving DecidableEq, Repr

/-- Outcome of one handler dispatch call: success with the updated channels and
writer, an error returned to the caller (the receiver then closes the
connection), or a task abort from a send to a full channel. The writer is
carried in every case because any Ack written before the failure is already on
the wire. -/
inductive DispatchResult where
  | ok (h : ConsensusReceiverHandler) (w : Writer)
  | err (w : Writer)
  | fatal (w : Writer)
deriving DecidableEq, Repr

/-- The writer state carried by a dispatch outcome. -/
def DispatchResult.writerOf : DispatchResult → Writer
  | .ok _ w => w
  | .err w => w
  | .fatal w => w

/-- Whether a dispatch outcome is the abort of the owning task. -/
def DispatchResult.isFatal : DispatchResult → Bool
  | .fatal _ => true
  | _ => false

/-- ConsensusReceiverHandler::dispatch from consensus.rs: decode the payload
(failure is returned to the caller), then route a SyncRequest to the helper
inbox, a Propose to the consensus inbox after writing an Ack whose send result
is ignored, and every other variant to the consensus inbox with no Ack. -/
def ConsensusReceiverHandler.dispatch (h : ConsensusReceiverHandler)
    (w : Writer) (p : Payload) : DispatchResult :=
  match p with
  | .malformed => .err w
  | .ok m =>
    match m with
    | .SyncRequest missing origin =>
      match h.tx_helper.send (missing, origin) with
      | some c => .ok { h with tx_helper := c } w
      | none => .fatal w
    | .Propose b =>
      let (w2, _) := w.send .Ack
      match h.tx_consensus.send (.Propose b) with
      | some c => .ok { h with tx_consensus := c } w2
      | none => .fatal w2
    | m =>
      match h.tx_consensus.send m with
      | some c => .ok { h with tx_consensus := c } w
      | none => .fatal w

/-- The shared validator-id-to-handler map (node.rs builds one per listener,
receiver.rs reads it, Consensus::spawn inserts into it). Modelled as an
association list whose lookup takes the most recent binding. -/
abbrev HandlerTable := List (Nat × ConsensusReceiverHandler)

/-- HashMap read access under the read lock (receiver.rs). -/
def tableLookup (t : HandlerTable) (id : Nat) : Option ConsensusReceiverHandler :=
  List.lookup id t

/-- HashMap insert under the write lock. -/
def tableInsert (t : HandlerTable) (id : Nat)
    (h : ConsensusReceiverHandler) : HandlerTable :=
  (id, h) :: t

/-- The handler-table effect of Consensus::spawn (consensus.rs): the detached
registration task inserts the freshly built ConsensusReceiverHandler for the
validator identifier. No code path of Consensus::spawn or of the dispatch
layer removes an entry. -/
def Consensus.spawnRegister (t : HandlerTable) (validator_id : Nat)
    (h : ConsensusReceiverHandler) : HandlerTable :=
  tableInsert t validator_id h

/-- A sequence of registrations applied to the table. -/
def applyInserts (t : HandlerTable) :
    List (Nat × ConsensusReceiverHandler) → HandlerTable
  | [] => t
  | (id, h) :: rest => applyInserts (Consensus.spawnRegister t id h) rest

/-- One inbound event on a connection, as the receive loop of spawn_runner
distinguishes them: a frame whose envelope decodes to a DvfMessage, a frame on
which envelope decoding fails, or a transport read error. -/
inductive Frame where
  | msg (d : DvfMessage)
  | badEnvelope
  | recvError
deriving DecidableEq, Repr

/-- The state of one connection task spawned by spawn_runner: the lazily
cached handler, the writer half, whether the task has returned (closed), and
whether it returned by aborting. The dispatches list records each payload
handed to handler dispatch, in order. -/
structure ConnState where
  handler_opt : Option ConsensusReceiverHandler
  writer : Writer
  closed : Bool
  aborted : Bool
  dispatches : List Payload
deriving DecidableEq, Repr

/-- The state of a fresh connection with a working transport. -/
def ConnState.init : ConnState :=
  { handler_opt := none, writer := { failing := false, sent := [] },
    closed := false, aborted := false, dispatches := [] }

instance : Inhabited ConnState := ⟨ConnState.init⟩

/-- One iteration of the receive loop of Receiver::spawn_runner
(receiver.rs), given the handler table as visible at that moment:
a read error returns from the task; an undecodable envelope replies
Invalid message and returns; a version mismatch replies Version mismatch and
continues; otherwise the handler is looked up only when none is cached, a
missing handler replies No handler found and continues, and a cached or found
handler gets the payload, a dispatch error returning from the task. -/
def recvStep (table : HandlerTable) (st : ConnState) (f : Frame) : ConnState :=
  if st.closed then st
  else
    match f with
    | .recvError => { st with closed := true }
    | .badEnvelope =>
      let (w, _) := st.writer.send .InvalidMessage
      { st with writer := w, closed := true }
    | .msg dvf =>
      if dvf.version ≠ VERSION then
        let (w, _) := st.writer.send .VersionMismatch
        { st with writer := w }
      else
        let hOpt := match st.handler_opt with
          | some h => some h
          | none => tableLookup table dvf.validator_id
        match hOpt with
        | some handler =>
          let st1 := { st with handler_opt := some handler,
                               dispatches := st.dispatches ++ [dvf.message] }
          match handler.dispatch st.writer dvf.message with
          | .ok h2 w2 => { st1 with handler_opt := some h2, writer := w2 }
          | .err w2 => { st1 with writer := w2, closed := true }
          | .fatal w2 => { st1 with writer := w2, closed := true, aborted := true }
        | none =>
          let (w, _) := st.writer.send .NoHandlerFound
          { st with writer := w }

/-- A run of the receive loop over a list of frames, each paired with the
handler table visible when that frame is processed (registrations may land
between frames). -/
def recvRun (st : ConnState) : List (HandlerTable × Frame) → ConnState
  | [] => st
  | (t, f) :: rest => recvRun (recvStep t st f) rest

/-- The listener and its connection tasks (Receiver::run plus one ConnState
per accepted connection): the accept loop keeps accepting independently of
what any connection task does. -/
structure RecvSystem where
  accepting : Bool
  conns : List ConnState
deriving DecidableEq, Repr

/-- Processing one frame on connection i of the system: only that connection
task advances; the accept loop and every other connection are untouched. -/
def sysStep (sys : RecvSystem) (table : HandlerTable) (i : Nat)
    (f : Frame) : RecvSystem :=
  { sys with conns := sys.conns.set i (recvStep table (sys.conns.getD i default) f) }

/-- A concrete handler with empty channels at the default capacity, used to
instantiate general theorems. -/
def h0 : ConsensusReceiverHandler :=
  { tx_consensus := { capacity := CHANNEL_CAPACITY, buf := [] },
    tx_helper := { capacity := CHANNEL_CAPACITY, buf := [] } }

/-- Advancing one connection of the system leaves every other connection and
the accept loop untouched: sysStep only rewrites slot i of the connection
list. -/
theorem sysStep_isolated (sys : RecvSystem) (table : HandlerTable) (i j : Nat)
    (f : Frame) (hne : j ≠ i) :
    (sysStep sys table i f).conns.getD j default = sys.conns.getD j default ∧
    (sysStep sys table i f).accepting = sys.accepting := by
  refine ⟨?_, rfl⟩
  simp only [sysStep, List.getD_eq_getElem?_getD]
  rw [List.getElem?_set_ne (fun h => hne h.symm)]

/-- C1: a frame whose envelope carries a version different from VERSION never
reaches handler dispatch (the dispatch trace is unchanged), yields exactly one
Version mismatch reply on a working transport, and leaves the connection open
with its cached handler unchanged, so later correctly-versioned frames on the
same connection are still processed. -/
theorem c1_version_gate (table : HandlerTable) (st : ConnState)
    (dvf : DvfMessage) (hopen : st.closed = false)
    (hw : st.writer.failing = false) (hv : dvf.version ≠ VERSION) :
    (recvStep table st (.msg dvf)).dispatches = st.dispatches ∧
    (recvStep table st (.msg dvf)).closed = false ∧
    (recvStep table st (.msg dvf)).handler_opt = st.handler_opt ∧
    (recvStep table st (.msg dvf)).writer.sent
      = st.writer.sent ++ [Reply.VersionMismatch] ∧
    (recvStep table st (.msg dvf)).aborted = st.aborted := by
  simp [recvStep, hopen, hv, Writer.send, hw]

theorem c1_version_gate_witness :
    (recvStep [] ConnState.init (.msg ⟨0, 7, .malformed⟩)).dispatches
        = ConnState.init.dispatches ∧
    (recvStep [] ConnState.init (.msg ⟨0, 7, .malformed⟩)).closed = false ∧
    (recvStep [] ConnState.init (.msg ⟨0, 7, .malformed⟩)).handler_opt
        = ConnState.init.handler_opt ∧
    (recvStep [] ConnState.init (.msg ⟨0, 7, .malformed⟩)).writer.sent
        = ConnState.init.writer.sent ++ [Reply.VersionMismatch] ∧
    (recvStep [] ConnState.init (.msg ⟨0, 7, .malformed⟩)).aborted
        = ConnState.init.aborted :=
  c1_version_gate [] ConnState.init ⟨0, 7, .malformed⟩ rfl rfl (by decide)

/-- C3: a successfully dispatched Propose writes exactly one Ack reply on a
working transport before the message reaches the consensus inbox, and any
message that is not a Propose leaves the writer completely untouched in every
outcome, so Vote, Timeout and TC never produce an Ack. -/
theorem c3_ack_contract (h : ConsensusReceiverHandler) (w : Writer)
    (m : ConsensusMessage)
    (hroom : h.tx_consensus.buf.length < h.tx_consensus.capacity)
    (hw : w.failing = false) :
    (∀ b, m = .Propose b →
      h.dispatch w (.ok m) =
        .ok { h with tx_consensus :=
                { h.tx_consensus with buf := h.tx_consensus.buf ++ [m] } }
          { w with sent := w.sent ++ [Reply.Ack] }) ∧
    ((∀ b, m ≠ .Propose b) → (h.dispatch w (.ok m)).writerOf = w) := by
  constructor
  · rintro b rfl
    simp [ConsensusReceiverHandler.dispatch, Writer.send, hw, Channel.send, hroom]
  · intro hnp
    cases m with
    | Propose b => exact absurd rfl (hnp b)
    | Vote v =>
      rcases hc : h.tx_consensus.send (ConsensusMessage.Vote v) with _ | c <;>
        simp [ConsensusReceiverHandler.dispatch, hc, DispatchResult.writerOf]
    | Timeout t =>
      rcases hc : h.tx_consensus.send (ConsensusMessage.Timeout t) with _ | c <;>
        simp [ConsensusReceiverHandler.dispatch, hc, DispatchResult.writerOf]
    | TC tc =>
      rcases hc : h.tx_consensus.send (ConsensusMessage.TC tc) with _ | c <;>
        simp [ConsensusReceiverHandler.dispatch, hc, DispatchResult.writerOf]
    | SyncRequest missing origin =>
      rcases hc : h.tx_helper.send (missing, origin) with _ | c <;>
        simp [ConsensusReceiverHandler.dispatch, hc, DispatchResult.writerOf]

theorem c3_ack_contract_witness :
    h0.dispatch { failing := false, sent := [] } (.ok (.Propose 5)) =
      .ok { h0 with tx_consensus :=
              { h0.tx_consensus with buf := [ConsensusMessage.Propose 5] } }
        { failing := false, sent := [Reply.Ack] } ∧
    (h0.dispatch { failing := false, sent := [] } (.ok (.Vote 3))).writerOf
      = { failing := false, sent := [] } :=
  ⟨(c3_ack_contract h0 { failing := false, sent := [] } (.Propose 5)
      (by decide) rfl).1 5 rfl,
   (c3_ack_contract h0 { failing := false, sent := [] } (.Vote 3)
      (by decide) rfl).2 (fun b hb => by cases hb)⟩

/-- C4: dispatch routes every decoded message by variant: a SyncRequest goes
to the helper inbox leaving the consensus inbox untouched, and every Propose,
Vote, Timeout and TC goes to the consensus inbox leaving the helper inbox
untouched; when the target channel has room the message is appended exactly
once, so no variant is duplicated across both inboxes or dropped. -/
theorem c4_dispatch_routing (h : ConsensusReceiverHandler) (w : Writer)
    (m : ConsensusMessage)
    (hc : h.tx_consensus.buf.length < h.tx_consensus.capacity)
    (hh : h.tx_helper.buf.length < h.tx_helper.capacity) :
    match m with
    | .SyncRequest missing origin =>
      h.dispatch w (.ok m) =
        .ok { h with tx_helper :=
                { h.tx_helper with buf := h.tx_helper.buf ++ [(missing, origin)] } } w
    | _ =>
      ∃ w2, h.dispatch w (.ok m) =
        .ok { h with tx_consensus :=
                { h.tx_consensus with buf := h.tx_consensus.buf ++ [m] } } w2 := by
  cases m with
  | Propose b =>
    exact ⟨(w.send .Ack).1,
      by simp [ConsensusReceiverHandler.dispatch, Channel.send, hc]⟩
  | Vote v =>
    exact ⟨w, by simp [ConsensusReceiverHandler.dispatch, Channel.send, hc]⟩
  | Timeout t =>
    exact ⟨w, by simp [ConsensusReceiverHandler.dispatch, Channel.send, hc]⟩
  | TC tc =>
    exact ⟨w, by simp [ConsensusReceiverHandler.dispatch, Channel.send, hc]⟩
  | SyncRequest missing origin =>
    simp [ConsensusReceiverHandler.dispatch, Channel.send, hh]

theorem c4_dispatch_routing_witness :
    h0.dispatch { failing := false, sent := [] } (.ok (.SyncRequest 3 4)) =
      .ok { h0 with tx_helper := { h0.tx_helper with buf := [(3, 4)] } }
        { failing := false, sent := [] } :=
  c4_dispatch_routing h0 { failing := false, sent := [] } (.SyncRequest 3 4)
    (by decide) (by decide)

/-- C6: when the bounded inboxes are full, dispatch of any message ends in the
abort of the owning task instead of waiting for capacity to free. -/
theorem c6_full_channel_aborts (h : ConsensusReceiverHandler) (w : Writer)
    (m : ConsensusMessage)
    (hfc : h.tx_consensus.capacity ≤ h.tx_consensus.buf.length)
    (hfh : h.tx_helper.capacity ≤ h.tx_helper.buf.length) :
    (h.dispatch w (.ok m)).isFatal = true := by
  cases m <;>
    simp [ConsensusReceiverHandler.dispatch, Channel.send, Nat.not_lt.mpr hfc,
      Nat.not_lt.mpr hfh, DispatchResult.isFatal, Writer.send]

theorem c6_full_channel_aborts_witness :
    ((ConsensusReceiverHandler.mk { capacity := 0, buf := [] }
        { capacity := 0, buf := [] }).dispatch
      { failing := false, sent := [] } (.ok (.Vote 1))).isFatal = true :=
  c6_full_channel_aborts
    (ConsensusReceiverHandler.mk { capacity := 0, buf := [] }
      { capacity := 0, buf := [] })
    { failing := false, sent := [] } (.Vote 1) (by decide) (by decide)

/-- C10: when the transport refuses the Ack write, dispatch of a Propose still
forwards the message to the consensus inbox and still returns success with the
writer unchanged: the failed reply never terminates the connection by
itself. -/
theorem c10_ack_write_failure_ignored (h : ConsensusReceiverHandler)
    (w : Writer) (b : Block) (hw : w.failing = true)
    (hroom : h.tx_consensus.buf.length < h.tx_consensus.capacity) :
    h.dispatch w (.ok (.Propose b)) =
      .ok { h with tx_consensus :=
              { h.tx_consensus with
                  buf := h.tx_consensus.buf ++ [ConsensusMessage.Propose b] } } w := by
  simp [ConsensusReceiverHandler.dispatch, Writer.send, hw, Channel.send, hroom]

theorem c10_ack_write_failure_ignored_witness :
    h0.dispatch { failing := true, sent := [] } (.ok (.Propose 9)) =
      .ok { h0 with tx_consensus :=
              { h0.tx_consensus with buf := [ConsensusMessage.Propose 9] } }
        { failing := true, sent := [] } :=
  c10_ack_write_failure_ignored h0 { failing := true, sent := [] } 9 rfl
    (by decide)

/-- C2: a correctly-versioned frame for a validator id with no table entry
yields a No handler found reply, leaves the connection open with no cached
handler and no dispatch; if the table visible at the next frame resolves the
id of that frame, the lookup is retried and the frame is dispatched
successfully on the same connection. -/
theorem c2_routing_miss_recovery (t1 t2 : HandlerTable) (d1 d2 : DvfMessage)
    (h h2 : ConsensusReceiverHandler) (w2 : Writer)
    (hv1 : d1.version = VERSION) (hv2 : d2.version = VERSION)
    (hmiss : tableLookup t1 d1.validator_id = none)
    (hhit : tableLookup t2 d2.validator_id = some h)
    (hdisp : h.dispatch { failing := false, sent := [Reply.NoHandlerFound] }
        d2.message = .ok h2 w2) :
    (recvStep t1 ConnState.init (.msg d1)).writer.sent = [Reply.NoHandlerFound] ∧
    (recvStep t1 ConnState.init (.msg d1)).closed = false ∧
    (recvStep t1 ConnState.init (.msg d1)).handler_opt = none ∧
    (recvStep t1 ConnState.init (.msg d1)).dispatches = [] ∧
    (recvStep t2 (recvStep t1 ConnState.init (.msg d1)) (.msg d2)).dispatches
        = [d2.message] ∧
    (recvStep t2 (recvStep t1 ConnState.init (.msg d1)) (.msg d2)).closed
        = false := by
  have h1 : recvStep t1 ConnState.init (.msg d1) =
      { ConnState.init with
          writer := { failing := false, sent := [Reply.NoHandlerFound] } } := by
    simp [recvStep, ConnState.init, hv1, hmiss, Writer.send]
  rw [h1]
  simp [recvStep, ConnState.init, hv2, hhit, hdisp, Writer.send]

theorem c2_routing_miss_recovery_witness :
    (recvStep [] ConnState.init (.msg ⟨1, 7, .ok (.Vote 0)⟩)).writer.sent
        = [Reply.NoHandlerFound] ∧
    (recvStep [] ConnState.init (.msg ⟨1, 7, .ok (.Vote 0)⟩)).closed = false ∧
    (recvStep [] ConnState.init (.msg ⟨1, 7, .ok (.Vote 0)⟩)).handler_opt = none ∧
    (recvStep [] ConnState.init (.msg ⟨1, 7, .ok (.Vote 0)⟩)).dispatches = [] ∧
    (recvStep [(7, h0)] (recvStep [] ConnState.init (.msg ⟨1, 7, .ok (.Vote 0)⟩))
        (.msg ⟨1, 7, .ok (.Vote 0)⟩)).dispatches = [Payload.ok (.Vote 0)] ∧
    (recvStep [(7, h0)] (recvStep [] ConnState.init (.msg ⟨1, 7, .ok (.Vote 0)⟩))
        (.msg ⟨1, 7, .ok (.Vote 0)⟩)).closed = false :=
  c2_routing_miss_recovery [] [(7, h0)] ⟨1, 7, .ok (.Vote 0)⟩
    ⟨1, 7, .ok (.Vote 0)⟩ h0
    { h0 with tx_consensus :=
        { capacity := CHANNEL_CAPACITY, buf := [ConsensusMessage.Vote 0] } }
    { failing := false, sent := [Reply.NoHandlerFound] }
    rfl rfl rfl (by decide) (by decide)

/-- C5 as stated is false: a correctly-versioned frame whose inner payload
fails to decode as a ConsensusMessage closes the connection without writing
any reply, so the connection never receives the Invalid message reply the
claim requires. Concretely, with a cached handler and an empty reply trace,
the step closes the connection and the trace stays empty. -/
theorem c5_counterexample :
    (recvStep [(7, h0)] { ConnState.init with handler_opt := some h0 }
        (.msg ⟨1, 7, .malformed⟩)).closed = true ∧
    Reply.InvalidMessage ∉
      (recvStep [(7, h0)] { ConnState.init with handler_opt := some h0 }
        (.msg ⟨1, 7, .malformed⟩)).writer.sent := by
  decide

/-- C5 amended: a deserialization failure is connection-fatal either way, but
the Invalid message reply accompanies only an envelope that fails to decode as
a DvfMessage; a frame whose inner payload fails to decode as a
ConsensusMessage closes the connection without a reply, and in both cases
the accept loop and every other connection are unaffected. -/
theorem c5_deser_failure_fatal (table : HandlerTable) (st : ConnState)
    (dvf : DvfMessage) (h : ConsensusReceiverHandler)
    (hopen : st.closed = false) (hw : st.writer.failing = false)
    (hv : dvf.version = VERSION) (hm : dvf.message = .malformed)
    (hh : st.handler_opt = some h) :
    (recvStep table st (.msg dvf)).closed = true ∧
    (recvStep table st (.msg dvf)).writer.sent = st.writer.sent ∧
    (recvStep table st .badEnvelope).closed = true ∧
    (recvStep table st .badEnvelope).writer.sent
        = st.writer.sent ++ [Reply.InvalidMessage] ∧
    (∀ (sys : RecvSystem) (tbl : HandlerTable) (i j : Nat) (f : Frame),
      j ≠ i →
        (sysStep sys tbl i f).conns.getD j default = sys.conns.getD j default ∧
        (sysStep sys tbl i f).accepting = sys.accepting) := by
  refine ⟨?_, ?_, ?_, ?_, fun sys tbl i j f hj => sysStep_isolated sys tbl i j f hj⟩
  · simp [recvStep, hopen, hv, hh, hm, ConsensusReceiverHandler.dispatch]
  · simp [recvStep, hopen, hv, hh, hm, ConsensusReceiverHandler.dispatch]
  · simp [recvStep, hopen, Writer.send, hw]
  · simp [recvStep, hopen, Writer.send, hw]

theorem c5_deser_failure_fatal_witness :
    (recvStep [] { ConnState.init with handler_opt := some h0 }
        (.msg ⟨1, 7, .malformed⟩)).closed = true :=
  (c5_deser_failure_fatal [] { ConnState.init with handler_opt := some h0 }
    ⟨1, 7, .malformed⟩ h0 rfl rfl rfl rfl rfl).1

/-- C7: a frame that makes the handler dispatch fail closes only the
connection task that served it; the accept loop keeps accepting and every
other connection task is untouched. -/
theorem c7_failure_isolated (sys : RecvSystem) (table : HandlerTable)
    (i : Nat) (f : Frame)
    (_hfail : (recvStep table (sys.conns.getD i default) f).closed = true) :
    (sysStep sys table i f).accepting = sys.accepting ∧
    ∀ j, j ≠ i →
      (sysStep sys table i f).conns.getD j default = sys.conns.getD j default :=
  ⟨rfl, fun j hj => (sysStep_isolated sys table i j f hj).1⟩

theorem c7_failure_isolated_witness :
    (sysStep
        { accepting := true,
          conns := [{ ConnState.init with handler_opt := some h0 },
                    ConnState.init] }
        [] 0 (.msg ⟨1, 7, .malformed⟩)).accepting = true ∧
    (sysStep
        { accepting := true,
          conns := [{ ConnState.init with handler_opt := some h0 },
                    ConnState.init] }
        [] 0 (.msg ⟨1, 7, .malformed⟩)).conns.getD 1 default
      = ConnState.init :=
  have h := c7_failure_isolated
    { accepting := true,
      conns := [{ ConnState.init with handler_opt := some h0 },
                ConnState.init] }
    [] 0 (.msg ⟨1, 7, .malformed⟩) (by decide)
  ⟨h.1, h.2 1 (by decide)⟩

/-- C8: registrations only ever add bindings: once a validator identifier
resolves in the handler table, it still resolves after any further sequence of
Consensus spawn registrations, and the dispatch layer itself only reads the
table. -/
theorem c8_table_monotone (t : HandlerTable) (id : Nat)
    (hs : (tableLookup t id).isSome = true)
    (ops : List (Nat × ConsensusReceiverHandler)) :
    (tableLookup (applyInserts t ops) id).isSome = true := by
  induction ops generalizing t with
  | nil => exact hs
  | cons p rest ih =>
    obtain ⟨a, h⟩ := p
    apply ih
    simp only [Consensus.spawnRegister, tableInsert, tableLookup, List.lookup]
    by_cases hid : id = a
    · simp [hid]
    · rw [show (id == a) = false from beq_eq_false_iff_ne.mpr hid]
      exact hs

theorem c8_table_monotone_witness :
    (tableLookup (applyInserts [(7, h0)] [(3, h0)]) 7).isSome = true :=
  c8_table_monotone [(7, h0)] 7 (by decide) [(3, h0)]

/-- C9: once a connection has cached a handler, a correctly-versioned frame is
dispatched to that cached handler without consulting the table again: the step
is identical for any two tables, even for a frame whose validator identifier
differs or is absent, and the frame always reaches dispatch. -/
theorem c9_cached_handler (t1 t2 : HandlerTable) (st : ConnState)
    (dvf : DvfMessage) (h : ConsensusReceiverHandler)
    (hopen : st.closed = false) (hcache : st.handler_opt = some h)
    (hv : dvf.version = VERSION) :
    recvStep t1 st (.msg dvf) = recvStep t2 st (.msg dvf) ∧
    (recvStep t1 st (.msg dvf)).dispatches = st.dispatches ++ [dvf.message] := by
  constructor
  · cases hd : h.dispatch st.writer dvf.message <;>
      simp [recvStep, hopen, hv, hcache, hd]
  · cases hd : h.dispatch st.writer dvf.message <;>
      simp [recvStep, hopen, hv, hcache, hd]

theorem c9_cached_handler_witness :
    recvStep [] { ConnState.init with handler_opt := some h0 }
        (.msg ⟨1, 9, .ok (.Vote 2)⟩)
      = recvStep [(7, h0)] { ConnState.init with handler_opt := some h0 }
          (.msg ⟨1, 9, .ok (.Vote 2)⟩) ∧
    (recvStep [] { ConnState.init with handler_opt := some h0 }
        (.msg ⟨1, 9, .ok (.Vote 2)⟩)).dispatches = [Payload.ok (.Vote 2)] :=
  c9_cached_handler [] [(7, h0)] { ConnState.init with handler_opt := some h0 }
    ⟨1, 9, .ok (.Vote 2)⟩ h0 rfl rfl rfl

end SafeStake
